import Mathlib

/-!
Verification of the devspace dev-pod orchestration core: a shallow embedding of
pkg/devspace/devpod/manager.go, pkg/devspace/services/portforwarding/portforwarding.go
and the prefix logger (pkg/util/log), with theorems settling the specified
properties of the manager registry, the restart loops and the port-forwarding
establishment protocol.
-/

set_option maxRecDepth 4096

/-- Go error values that flow through the embedded code. DevPodAlreadyExists is
manager.go lines 67-71; DevPodLostConnection is the classification type tested at
manager.go line 126 (its defining file is not among the sources, only the type
assertion on it); errorf is errors.Errorf, wrap is errors.Wrap (message plus cause). -/
inductive GoError where
  | DevPodLostConnection : GoError
  | DevPodAlreadyExists : GoError
  | errorf (msg : String) : GoError
  | wrap (inner : GoError) (msg : String) : GoError
deriving DecidableEq, Repr

/-- The error text: DevPodAlreadyExists.Error() is manager.go line 70; wrap follows
the pkg/errors "msg: cause" format. The DevPodLostConnection text is modelled (its
file is not among the sources) and is never relied upon by a theorem. -/
def GoError.message : GoError → String
  | .DevPodLostConnection => "lost connection"
  | .DevPodAlreadyExists => "dev pod already exists, please make sure to stop the dev pod before rerunning it"
  | .errorf m => m
  | .wrap e m => m ++ ": " ++ e.message

/-! ## Prefix logger (pkg/util/log, source file part_000) -/

/-- The logrus level numbers used by the logger: Panic=0, Fatal=1, Error=2, Warn=3,
Info=4, Debug=5; the guard s.level >= level in writeMessage is the numeric test. -/
def PanicLevel : Nat := 0

def FatalLevel : Nat := 1

def ErrorLevel : Nat := 2

def WarnLevel : Nat := 3

def InfoLevel : Nat := 4

def DebugLevel : Nat := 5

/-- The Colors palette of part_000 lines 18-25. -/
def Colors : List String := ["blue", "green", "yellow", "magenta", "cyan", "white+b"]

/-- Modelled from the spec: hash.StringToNumber, the deterministic pure hash of a
name used for color assignment (spec section 9: "hash of name → fixed palette
index ... a pure function"); the hash package is not among the provided sources.
Modelled as the 32-bit FNV-1a hash of the string's UTF-8 bytes, so the result is
always below 2^32. -/
def StringToNumber (s : String) : Nat :=
  s.toUTF8.toList.foldl (fun h b => ((h ^^^ b.toNat) * 16777619) % 4294967296) 2166136261

theorem StringToNumber_lt (s : String) : StringToNumber s < 4294967296 := by
  unfold StringToNumber
  generalize s.toUTF8.toList = bs
  induction bs using List.reverseRecOn with
  | nil => decide
  | append_singleton xs x _ =>
    rw [List.foldl_append]
    exact Nat.mod_lt _ (by decide)

/-- The color-index computation of NewDefaultPrefixLogger (part_000 lines 27-39):
hashNumber := int(hash.StringToNumber(pfx)); if hashNumber < 0 it is negated; the
index is hashNumber % len(Colors). Go's int is modelled as a mathematical integer
(the value is below 2^32, so no 64-bit overflow is reachable) and Go's % is the
truncated remainder Int.tmod. -/
def defaultPrefixColorIndex (pfx : String) : Int :=
  let hashNumber : Int := Int.ofNat (StringToNumber pfx)
  let hashNumber := if hashNumber < 0 then hashNumber * -1 else hashNumber
  Int.tmod hashNumber (Int.ofNat Colors.length)

/-- The indexing Colors[hashNumber%len(Colors)] performed by NewDefaultPrefixLogger:
returns none exactly when the index would be outside the palette (a Go panic),
otherwise the selected color. -/
def NewDefaultPrefixLoggerColor (pfx : String) : Option String :=
  let idx := defaultPrefixColorIndex pfx
  if h : 0 ≤ idx ∧ idx.toNat < Colors.length then
    some (Colors.get ⟨idx.toNat, h.2⟩)
  else
    none

/-- The mutable state of a prefixLogger (part_000 lines 52-61) that the write path
reads: the level threshold, the name prefix and the assigned color. -/
structure PrefixLogger where
  level : Nat
  pfx : String
  color : String
deriving DecidableEq, Repr

/-- Observable effects of a logger call: a leveled write to the base logger, or a
process exit (os.Exit). -/
inductive LogEffect where
  | write (level : Nat) (message : String) : LogEffect
  | exitProcess (code : Nat) : LogEffect
deriving DecidableEq, Repr

/-- prefixLogger.writeMessage (part_000 lines 93-110): the write happens iff
s.level >= level; the message is decorated with the prefix. The ANSI coloring and
timestamp decoration come from out-of-scope collaborators (spec section 1) and are
not modelled; the recorded effect is the leveled write of the decorated message. -/
def PrefixLogger.writeMessage (s : PrefixLogger) (level : Nat) (message : String) : List LogEffect :=
  if level ≤ s.level then [LogEffect.write level (s.pfx ++ message)] else []

/-- prefixLogger.Fatal (part_000 lines 168-175): writeMessage at FatalLevel with a
"Fatal: " marker, then os.Exit(1). msg stands for fmt.Sprintln(args...). -/
def PrefixLogger.Fatal (s : PrefixLogger) (msg : String) : List LogEffect :=
  s.writeMessage FatalLevel ("Fatal: " ++ msg) ++ [LogEffect.exitProcess 1]

/-- prefixLogger.Fatalf (part_000 lines 177-184): writeMessage at FatalLevel with a
"Fatal: " marker and a trailing newline, then os.Exit(1). msg stands for
fmt.Sprintf(format, args...). -/
def PrefixLogger.Fatalf (s : PrefixLogger) (msg : String) : List LogEffect :=
  s.writeMessage FatalLevel ("Fatal: " ++ msg ++ "\n") ++ [LogEffect.exitProcess 1]

/-- Claim C8 counterexample: a Fatal call on the prefix logger does terminate the
process inside the logging component — the effect trace of
prefixLogger.Fatal ends with os.Exit(1), contradicting the claim that
process-level termination does not occur there. -/
theorem prefixLogger_fatal_exit_counterexample :
    LogEffect.exitProcess 1 ∈
      PrefixLogger.Fatal { level := InfoLevel, pfx := "api", color := "blue" } "boom\n" := by
  decide

/-- Claim C8 (amended): every call to Fatal or Fatalf on the prefix logger
terminates the process with exit code 1 from inside the logging component, as the
last effect after the fatal-level write attempt; termination is not confined to
the top-level entry point. -/
theorem prefixLogger_fatal_always_exits (s : PrefixLogger) (msg : String) :
    (s.Fatal msg).getLast? = some (LogEffect.exitProcess 1) ∧
    (s.Fatalf msg).getLast? = some (LogEffect.exitProcess 1) := by
  constructor <;>
    simp [PrefixLogger.Fatal, PrefixLogger.Fatalf, PrefixLogger.writeMessage]

/-- Claim C10: NewDefaultPrefixLogger's color computation is total and
deterministic: the index (hash negated if negative, then taken modulo the palette
length) always lies within the 6-entry Colors palette, so the indexing never
panics — the color lookup always returns a value, and being a pure function of
the prefix alone the same prefix always yields the same color. -/
theorem newDefaultPrefixLogger_color_total (pfx : String) :
    0 ≤ defaultPrefixColorIndex pfx ∧
    defaultPrefixColorIndex pfx < Int.ofNat Colors.length ∧
    (NewDefaultPrefixLoggerColor pfx).isSome = true := by
  have hcalc : defaultPrefixColorIndex pfx =
      Int.ofNat (StringToNumber pfx % Colors.length) := by
    unfold defaultPrefixColorIndex
    have hnn : ¬ (Int.ofNat (StringToNumber pfx) < 0) := by
      exact Int.not_lt.mpr (Int.ofNat_nonneg _)
    simp only [hnn, if_false]
    rfl
  have h0 : 0 ≤ defaultPrefixColorIndex pfx := by
    rw [hcalc]; exact Int.ofNat_nonneg _
  have hlt : defaultPrefixColorIndex pfx < Int.ofNat Colors.length := by
    rw [hcalc]
    exact Int.ofNat_lt.mpr (Nat.mod_lt _ (by decide))
  refine ⟨h0, hlt, ?_⟩
  unfold NewDefaultPrefixLoggerColor
  have hn : (defaultPrefixColorIndex pfx).toNat < Colors.length := by
    rw [hcalc]
    simpa using Nat.mod_lt (StringToNumber pfx) (show 0 < Colors.length by decide)
  simp [h0, hn]

/-! ## Dev pod manager (pkg/devspace/devpod/manager.go) -/

/-- Modelled from the spec: the Dev Pod Session state machine of spec section 4.3
(states Starting, Running, Stopping, Stopped, Restarting); the session's own
implementation file is not among the sources, only the manager that drives it. -/
inductive SessionState where
  | Starting : SessionState
  | Running : SessionState
  | Stopping : SessionState
  | Stopped : SessionState
  | Restarting : SessionState
deriving DecidableEq, Repr

/-- Modelled from the spec: a devPod session as the manager observes it — its
lifecycle state and the terminal error readable after Done has fired (spec
section 3: "a done signal that fires exactly once on terminal completion; a
terminal error (nil on clean stop)"). -/
structure DevPod where
  state : SessionState
  termErr : Option GoError
deriving DecidableEq, Repr

/-- Modelled from the spec: Alive() is true iff Done() has not yet fired, and Done
fires exactly at terminal completion, i.e. state Stopped (spec section 4.3). -/
def DevPod.Alive (dp : DevPod) : Bool :=
  dp.state ≠ SessionState.Stopped

/-- Modelled from the spec: newDevPod() (manager.go line 106) yields a fresh
session in the Starting state with no terminal error. -/
def newDevPod : DevPod :=
  { state := SessionState.Starting, termErr := none }

/-- The manager's registry d.devPods: a Go map from name to session, embedded as an
association list whose reachable states keep their keys distinct. -/
abbrev Registry := List (String × DevPod)

/-- Go map read d.devPods[name]. -/
def regGet : Registry → String → Option DevPod
  | [], _ => none
  | (k, v) :: rest, name => if k = name then some v else regGet rest name

/-- Go map write d.devPods[name] = dp: replaces the entry when the key is present,
otherwise appends it. -/
def regInsert : Registry → String → DevPod → Registry
  | [], name, dp => [(name, dp)]
  | (k, v) :: rest, name, dp =>
    if k = name then (name, dp) :: rest else (k, v) :: regInsert rest name dp

/-- Go map delete(d.devPods, name). -/
def regDelete : Registry → String → Registry
  | [], _ => []
  | (k, v) :: rest, name =>
    if k = name then rest else (k, v) :: regDelete rest name

/-- The registry keys are pairwise distinct — the Go-map representation invariant. -/
abbrev keysNodup (r : Registry) : Prop :=
  (r.map Prod.fst).Nodup

/-- The state of devPodManager that the embedded operations touch: the devPods
registry (the restartPods field is declared but never used by the source). -/
structure ManagerState where
  devPods : Registry
deriving DecidableEq, Repr

/-- Whether the registry holds an alive session under the name — the condition
dp != nil && dp.Alive() checked by Start (manager.go line 101). -/
def ManagerState.aliveAt (m : ManagerState) (name : String) : Bool :=
  match regGet m.devPods name with
  | some dp => dp.Alive
  | none => false

/-- The outcome of the session's own dp.Start call (manager.go line 112), an
external event from the manager's viewpoint: success, or failure with an error. -/
inductive StartOutcome where
  | success : StartOutcome
  | failure (e : GoError) : StartOutcome
deriving DecidableEq, Repr

/-- The value returned by devPodManager.Start: nil, the DevPodAlreadyExists
conflict, or the error propagated from dp.Start. -/
inductive StartReturn where
  | ok : StartReturn
  | conflict : StartReturn
  | err (e : GoError) : StartReturn
deriving DecidableEq, Repr

/-- The registration path of devPodManager.Start (manager.go lines 105-115): a new
devPod is created and inserted under the name, then dp.Start is called; on success
the session reaches Running (modelled from the spec, section 4.3 startup barrier)
and Start returns nil; on failure the session's tree has terminated, so it is
Stopped with the error, and Start propagates the error — the failed entry is not
removed from the registry. -/
def ManagerState.startRegister (m : ManagerState) (name : String) (outcome : StartOutcome) :
    ManagerState × StartReturn :=
  match outcome with
  | .success =>
    ({ devPods := regInsert m.devPods name { state := SessionState.Running, termErr := none } },
      StartReturn.ok)
  | .failure e =>
    ({ devPods := regInsert m.devPods name { state := SessionState.Stopped, termErr := some e } },
      StartReturn.err e)

/-- The critical section of devPodManager.Start (manager.go lines 86-115) run under
the per-name lock: read the registry; if an alive session exists under the name,
return DevPodAlreadyExists with the state unchanged; otherwise register a fresh
session and call its Start. -/
def ManagerState.Start (m : ManagerState) (name : String) (outcome : StartOutcome) :
    ManagerState × StartReturn :=
  match regGet m.devPods name with
  | some dp =>
    if dp.Alive then (m, StartReturn.conflict) else m.startRegister name outcome
  | none => m.startRegister name outcome

/-- devPodManager.stop (manager.go lines 178-187): look up the session; absent name
is a no-op; otherwise dp.Stop() is called and the entry deleted. -/
def ManagerState.stop (m : ManagerState) (name : String) : ManagerState :=
  match regGet m.devPods name with
  | none => m
  | some _ => { devPods := regDelete m.devPods name }

/-- devPodManager.Stop (manager.go lines 167-176): the per-name lock and registry
mutex around stop; the registry effect is that of stop. -/
def ManagerState.Stop (m : ManagerState) (name : String) : ManagerState :=
  m.stop name

/-- devPodManager.Reset (manager.go lines 149-165): under the locks, stop the
session; the subsequent RevertReplacePod call touches only the external
pod-replacement collaborator, not the registry. -/
def ManagerState.Reset (m : ManagerState) (name : String) : ManagerState :=
  m.stop name

/-- Modelled from the spec: the session's done signal firing (its tree's Join
returning) — the registered session under the name, if any, becomes Stopped with
its terminal error (spec section 3; the session implementation is not among the
sources). -/
def ManagerState.sessionDone (m : ManagerState) (name : String) (e : Option GoError) : ManagerState :=
  match regGet m.devPods name with
  | none => m
  | some _ =>
    { devPods := regInsert m.devPods name { state := SessionState.Stopped, termErr := e } }

/-- One serialized operation on the manager's registry: the critical sections of
Start, Stop and Reset (mutually excluded per name by the lock factory and
globally by the registry mutex), plus the done-signal event. -/
inductive ManagerOp where
  | start (name : String) (outcome : StartOutcome) : ManagerOp
  | stop (name : String) : ManagerOp
  | reset (name : String) : ManagerOp
  | done (name : String) (e : Option GoError) : ManagerOp
deriving DecidableEq, Repr

def ManagerState.applyOp (m : ManagerState) : ManagerOp → ManagerState
  | .start name outcome => (m.Start name outcome).1
  | .stop name => m.Stop name
  | .reset name => m.Reset name
  | .done name e => m.sessionDone name e

/-- The registry state reached from the empty initial registry (NewManager,
manager.go lines 40-45) by a sequence of serialized operations. -/
def runOps (ops : List ManagerOp) : ManagerState :=
  ops.foldl ManagerState.applyOp { devPods := [] }

/-- A batch of Start calls for one name, serialized by the per-name lock; returns
the final state and the list of return values, one per call. -/
def startSerialized : ManagerState → String → List StartOutcome → ManagerState × List StartReturn
  | m, _, [] => (m, [])
  | m, name, o :: rest =>
    match m.Start name o with
    | (m1, r) =>
      match startSerialized m1 name rest with
      | (m2, rs) => (m2, r :: rs)

theorem regGet_regInsert_self (r : Registry) (name : String) (dp : DevPod) :
    regGet (regInsert r name dp) name = some dp := by
  induction r with
  | nil => simp [regInsert, regGet]
  | cons kv rest ih =>
    obtain ⟨k, v⟩ := kv
    by_cases hk : k = name
    · simp [regInsert, regGet, hk]
    · simp [regInsert, regGet, hk, ih]

theorem mem_keys_regInsert (r : Registry) (name a : String) (dp : DevPod) :
    a ∈ (regInsert r name dp).map Prod.fst ↔ a ∈ r.map Prod.fst ∨ a = name := by
  induction r with
  | nil => simp [regInsert]
  | cons kv rest ih =>
    obtain ⟨k, v⟩ := kv
    by_cases hk : k = name
    · subst hk
      simp [regInsert]
      tauto
    · simp [regInsert, hk, ih]
      tauto

theorem keysNodup_regInsert (r : Registry) (name : String) (dp : DevPod)
    (h : keysNodup r) : keysNodup (regInsert r name dp) := by
  induction r with
  | nil => simp [regInsert, keysNodup]
  | cons kv rest ih =>
    obtain ⟨k, v⟩ := kv
    simp only [keysNodup, List.map_cons, List.nodup_cons] at h
    obtain ⟨hnotin, hrest⟩ := h
    by_cases hk : k = name
    · subst hk
      show keysNodup (if k = k then (k, dp) :: rest else (k, v) :: regInsert rest k dp)
      rw [if_pos rfl]
      simp only [keysNodup, List.map_cons, List.nodup_cons]
      exact ⟨hnotin, hrest⟩
    · simp only [regInsert, hk, if_false, keysNodup, List.map_cons, List.nodup_cons]
      refine ⟨?_, ih hrest⟩
      intro hmem
      rcases (mem_keys_regInsert rest name k dp).mp hmem with h1 | h2
      · exact hnotin h1
      · exact hk h2

theorem regDelete_sublist (r : Registry) (name : String) :
    List.Sublist (regDelete r name) r := by
  induction r with
  | nil => simp [regDelete]
  | cons kv rest ih =>
    obtain ⟨k, v⟩ := kv
    show List.Sublist (if k = name then rest else (k, v) :: regDelete rest name) ((k, v) :: rest)
    by_cases hk : k = name
    · rw [if_pos hk]
      exact List.sublist_cons_self (k, v) rest
    · rw [if_neg hk]
      exact List.Sublist.cons₂ (k, v) ih

theorem keysNodup_regDelete (r : Registry) (name : String) (h : keysNodup r) :
    keysNodup (regDelete r name) := by
  exact List.Nodup.sublist (List.Sublist.map Prod.fst (regDelete_sublist r name)) h

theorem keysNodup_start (m : ManagerState) (name : String) (o : StartOutcome)
    (h : keysNodup m.devPods) : keysNodup (m.Start name o).1.devPods := by
  unfold ManagerState.Start ManagerState.startRegister
  cases regGet m.devPods name with
  | some dp =>
    by_cases ha : dp.Alive
    · simpa [ha] using h
    · simp only [ha, if_false]
      cases o <;> exact keysNodup_regInsert _ _ _ h
  | none => cases o <;> exact keysNodup_regInsert _ _ _ h

theorem keysNodup_stop (m : ManagerState) (name : String)
    (h : keysNodup m.devPods) : keysNodup (m.stop name).devPods := by
  unfold ManagerState.stop
  cases regGet m.devPods name with
  | none => exact h
  | some dp => exact keysNodup_regDelete _ _ h

theorem keysNodup_applyOp (m : ManagerState) (op : ManagerOp)
    (h : keysNodup m.devPods) : keysNodup (m.applyOp op).devPods := by
  cases op with
  | start name outcome => exact keysNodup_start m name outcome h
  | stop name => exact keysNodup_stop m name h
  | reset name => exact keysNodup_stop m name h
  | done name e =>
    show keysNodup (m.sessionDone name e).devPods
    unfold ManagerState.sessionDone
    cases regGet m.devPods name with
    | none => exact h
    | some dp => exact keysNodup_regInsert _ _ _ h

theorem keysNodup_runOps (ops : List ManagerOp) : keysNodup (runOps ops).devPods := by
  have hgen : ∀ (l : List ManagerOp) (m : ManagerState), keysNodup m.devPods →
      keysNodup (l.foldl ManagerState.applyOp m).devPods := by
    intro l
    induction l with
    | nil => intro m hm; exact hm
    | cons op rest ih =>
      intro m hm
      exact ih _ (keysNodup_applyOp m op hm)
  exact hgen ops { devPods := [] } (by simp [keysNodup])

theorem countP_alive_le_one (r : Registry) (name : String) (h : keysNodup r) :
    r.countP (fun p => p.1 == name && p.2.Alive) ≤ 1 := by
  induction r with
  | nil => simp
  | cons kv rest ih =>
    rw [keysNodup, List.map_cons, List.nodup_cons] at h
    obtain ⟨hnotin, hrest⟩ := h
    rw [List.countP_cons]
    by_cases hk : kv.1 = name
    · have hz : rest.countP (fun p => p.1 == name && p.2.Alive) = 0 := by
        rw [List.countP_eq_zero]
        intro p hp
        simp only [Bool.and_eq_true, beq_iff_eq]
        rintro ⟨hpeq, -⟩
        exact hnotin (by
          have : p.1 ∈ rest.map Prod.fst := List.mem_map_of_mem Prod.fst hp
          rwa [hpeq, ← hk] at this)
      rw [hz]
      cases hpred : (kv.1 == name && kv.2.Alive) <;> simp
    · have hfalse : (kv.1 == name && kv.2.Alive) = false := by
        simp [hk]
      rw [hfalse]
      simpa using ih hrest

theorem start_of_alive (m : ManagerState) (name : String) (o : StartOutcome)
    (h : m.aliveAt name = true) : m.Start name o = (m, StartReturn.conflict) := by
  unfold ManagerState.aliveAt at h
  unfold ManagerState.Start
  cases hg : regGet m.devPods name with
  | none =>
    rw [hg] at h
    exact absurd h (by decide)
  | some dp =>
    rw [hg] at h
    change dp.Alive = true at h
    show (if dp.Alive then (m, StartReturn.conflict) else m.startRegister name o) =
      (m, StartReturn.conflict)
    rw [if_pos h]

theorem start_success_of_not_alive (m : ManagerState) (name : String)
    (h : m.aliveAt name = false) :
    m.Start name StartOutcome.success =
      ({ devPods := regInsert m.devPods name { state := SessionState.Running, termErr := none } },
        StartReturn.ok) := by
  unfold ManagerState.aliveAt at h
  unfold ManagerState.Start
  cases hg : regGet m.devPods name with
  | none => rfl
  | some dp =>
    rw [hg] at h
    change dp.Alive = false at h
    show (if dp.Alive then (m, StartReturn.conflict) else m.startRegister name StartOutcome.success) =
      ({ devPods := regInsert m.devPods name { state := SessionState.Running, termErr := none } },
        StartReturn.ok)
    rw [if_neg (by simp [h])]
    rfl

theorem aliveAt_after_success (m : ManagerState) (name : String) :
    ManagerState.aliveAt
      { devPods := regInsert m.devPods name { state := SessionState.Running, termErr := none } }
      name = true := by
  unfold ManagerState.aliveAt
  rw [regGet_regInsert_self]
  rfl

theorem startSerialized_of_alive (m : ManagerState) (name : String)
    (outs : List StartOutcome) (h : m.aliveAt name = true) :
    startSerialized m name outs = (m, outs.map fun _ => StartReturn.conflict) := by
  induction outs with
  | nil => rfl
  | cons o rest ih =>
    simp only [startSerialized, start_of_alive m name o h, ih, List.map_cons]

theorem count_conflict_replicate (n : Nat) :
    (List.replicate n StartReturn.conflict).count StartReturn.conflict = n := by
  induction n with
  | zero => rfl
  | succ n ih => simp [List.replicate_succ, List.count_cons, ih]

theorem count_ok_replicate (n : Nat) :
    (List.replicate n StartReturn.conflict).count StartReturn.ok = 0 := by
  induction n with
  | zero => rfl
  | succ n ih => simp [List.replicate_succ, List.count_cons, ih]

/-- Claim C1: in every state of the manager's registry reachable from the empty
registry under any serialized sequence of Start, Stop, Reset and session-done
operations, at most one session whose state is not Stopped (at most one alive
session) is registered under each name; and for Start calls on the same name
(serialized by the per-name lock) from a state with no alive session under that
name, with every session start succeeding, exactly one call returns ok and every
other call receives the DevPodAlreadyExists conflict. -/
theorem manager_registry_at_most_one_alive_per_name :
    (∀ (ops : List ManagerOp) (name : String),
        (runOps ops).devPods.countP (fun p => p.1 == name && p.2.Alive) ≤ 1) ∧
    (∀ (m : ManagerState) (name : String) (outs : List StartOutcome),
        m.aliveAt name = false → outs ≠ [] → (∀ o ∈ outs, o = StartOutcome.success) →
        ((startSerialized m name outs).2.count StartReturn.ok = 1 ∧
          (startSerialized m name outs).2.count StartReturn.conflict = outs.length - 1)) := by
  constructor
  · intro ops name
    exact countP_alive_le_one _ _ (keysNodup_runOps ops)
  · intro m name outs hna hne hall
    cases outs with
    | nil => exact absurd rfl hne
    | cons o rest =>
      have ho : o = StartOutcome.success := hall o (List.mem_cons_self o rest)
      subst ho
      have h1 := start_success_of_not_alive m name hna
      have h2 := startSerialized_of_alive _ name rest (aliveAt_after_success m name)
      simp only [startSerialized, h1, h2]
      constructor
      · simp [List.count_cons, count_ok_replicate]
      · simp [List.count_cons, count_conflict_replicate]

/-- Claim C1 witness: three serialized Start calls for "api" from the empty
registry, all of whose session starts succeed, yield exactly one ok and two
conflicts. -/
theorem manager_registry_at_most_one_alive_per_name_witness :
    (startSerialized { devPods := [] } "api"
        [StartOutcome.success, StartOutcome.success, StartOutcome.success]).2.count
        StartReturn.ok = 1 ∧
    (startSerialized { devPods := [] } "api"
        [StartOutcome.success, StartOutcome.success, StartOutcome.success]).2.count
        StartReturn.conflict =
      [StartOutcome.success, StartOutcome.success, StartOutcome.success].length - 1 :=
  manager_registry_at_most_one_alive_per_name.2 { devPods := [] } "api"
    [StartOutcome.success, StartOutcome.success, StartOutcome.success]
    (by decide) (by decide) (by decide)

/-- Claim C2: when the registry already holds an alive session under the name,
Start returns the DevPodAlreadyExists conflict and the whole manager state is
unchanged — no session is created or registered and the existing entry is intact. -/
theorem manager_start_conflict_without_side_effects (m : ManagerState) (name : String)
    (o : StartOutcome) (h : m.aliveAt name = true) :
    m.Start name o = (m, StartReturn.conflict) :=
  start_of_alive m name o h

/-- Claim C2 witness: starting "api" over a registry holding a running "api"
session returns the conflict and leaves the registry untouched. -/
theorem manager_start_conflict_without_side_effects_witness :
    ManagerState.Start
      { devPods := [("api", { state := SessionState.Running, termErr := none })] }
      "api" StartOutcome.success =
    ({ devPods := [("api", { state := SessionState.Running, termErr := none })] },
      StartReturn.conflict) :=
  manager_start_conflict_without_side_effects
    { devPods := [("api", { state := SessionState.Running, termErr := none })] }
    "api" StartOutcome.success (by decide)

theorem regGet_eq_none_of_not_mem (r : Registry) (name : String)
    (h : name ∉ r.map Prod.fst) : regGet r name = none := by
  induction r with
  | nil => rfl
  | cons kv rest ih =>
    obtain ⟨k, v⟩ := kv
    simp only [List.map_cons, List.mem_cons] at h
    push_neg at h
    have hk : ¬ k = name := fun heq => h.1 heq.symm
    simp [regGet, hk, ih h.2]

theorem regGet_regDelete_self (r : Registry) (name : String) (h : keysNodup r) :
    regGet (regDelete r name) name = none := by
  induction r with
  | nil => rfl
  | cons kv rest ih =>
    obtain ⟨k, v⟩ := kv
    rw [keysNodup, List.map_cons, List.nodup_cons] at h
    obtain ⟨hnotin, hrest⟩ := h
    by_cases hk : k = name
    · subst hk
      simpa [regDelete] using regGet_eq_none_of_not_mem rest k hnotin
    · simp [regDelete, hk, regGet, ih hrest]

theorem stop_of_absent (m : ManagerState) (name : String)
    (h : regGet m.devPods name = none) : m.Stop name = m := by
  unfold ManagerState.Stop ManagerState.stop
  rw [h]

/-- Claim C9: Stop is idempotent — when no session is registered under the name it
is a no-op (and, being a total function, it neither errors nor panics); after any
Stop the registry no longer contains the name; and two consecutive Stops equal
one. Stated for any manager state satisfying the Go-map key-distinctness
representation invariant, which every reachable state satisfies. -/
theorem manager_stop_idempotent (m : ManagerState) (name : String)
    (h : keysNodup m.devPods) :
    (regGet m.devPods name = none → m.Stop name = m) ∧
    regGet (m.Stop name).devPods name = none ∧
    (m.Stop name).Stop name = m.Stop name := by
  have habsent : regGet (m.Stop name).devPods name = none := by
    unfold ManagerState.Stop ManagerState.stop
    cases hg : regGet m.devPods name with
    | none => exact hg
    | some dp => exact regGet_regDelete_self m.devPods name h
  exact ⟨stop_of_absent m name, habsent, stop_of_absent _ name habsent⟩

/-- Claim C9 witness: stopping "api" on a one-entry registry empties it, a second
Stop is a no-op, and Stop of an absent name leaves the state unchanged. -/
theorem manager_stop_idempotent_witness :
    (regGet [("api", { state := SessionState.Running, termErr := none })] "api" = none →
      ManagerState.Stop
        { devPods := [("api", { state := SessionState.Running, termErr := none })] } "api" =
        { devPods := [("api", { state := SessionState.Running, termErr := none })] }) ∧
    regGet (ManagerState.Stop
        { devPods := [("api", { state := SessionState.Running, termErr := none })] }
        "api").devPods "api" = none ∧
    (ManagerState.Stop
        { devPods := [("api", { state := SessionState.Running, termErr := none })] }
        "api").Stop "api" =
      ManagerState.Stop
        { devPods := [("api", { state := SessionState.Running, termErr := none })] } "api" :=
  manager_stop_idempotent
    { devPods := [("api", { state := SessionState.Running, termErr := none })] }
    "api" (by decide)

/-! ## The lost-connection restart watcher (manager.go lines 118-144) -/

/-- What the restart goroutine observes about one iteration of its loop: the value
returned by the re-invoked d.Start, and the value of originalContext.IsDone()
read after a failure (manager.go line 130). -/
structure RestartAttempt where
  result : Option GoError
  ctxDone : Bool
deriving DecidableEq, Repr

/-- How the restart goroutine finishes: a Start attempt succeeded; the context was
found cancelled after a failed attempt; the attempt was rejected with
DevPodAlreadyExists; the supplied observation list ran out with the loop still
going; or the loop was never entered. In every case the goroutine returns
nothing — no error can be surfaced from it. -/
inductive RestartExit where
  | success : RestartExit
  | ctxCancelled : RestartExit
  | conflict : RestartExit
  | stillLooping : RestartExit
  | notEntered : RestartExit
deriving DecidableEq, Repr

/-- The for-loop of manager.go lines 127-142, one list entry per iteration: call
Start; on nil return, exit; on error, return silently if the context is done,
return silently if the error is DevPodAlreadyExists, otherwise log, sleep 10
seconds and continue. The second component is the total seconds slept
(time.Sleep(time.Second * 10) per failed, non-exiting attempt). -/
def restartLoop : List RestartAttempt → RestartExit × Nat
  | [] => (RestartExit.stillLooping, 0)
  | a :: rest =>
    match a.result with
    | none => (RestartExit.success, 0)
    | some e =>
      if a.ctxDone then (RestartExit.ctxCancelled, 0)
      else if e = GoError.DevPodAlreadyExists then (RestartExit.conflict, 0)
      else
        let r := restartLoop rest
        (r.1, r.2 + 10)

/-- An attempt on which the loop exits: success, context cancelled, or conflict. -/
def attemptTerminal (a : RestartAttempt) : Bool :=
  a.result.isNone || a.ctxDone || (a.result == some GoError.DevPodAlreadyExists)

/-- The exit the loop takes on a terminal attempt. -/
def attemptExit (a : RestartAttempt) : RestartExit :=
  match a.result with
  | none => RestartExit.success
  | some e =>
    if a.ctxDone then RestartExit.ctxCancelled
    else if e = GoError.DevPodAlreadyExists then RestartExit.conflict
    else RestartExit.stillLooping

/-- The goroutine spawned by Start (manager.go lines 118-144): wake on dp.Done();
return at once if the owning context is done; enter the restart loop only when
the terminal error is classified DevPodLostConnection. -/
def startWatcher (ctxDoneAtWake : Bool) (termErr : Option GoError)
    (attempts : List RestartAttempt) : RestartExit × Nat :=
  if ctxDoneAtWake then (RestartExit.notEntered, 0)
  else
    match termErr with
    | some GoError.DevPodLostConnection => restartLoop attempts
    | _ => (RestartExit.notEntered, 0)

theorem restartLoop_spec (attempts : List RestartAttempt) :
    (restartLoop attempts).2 =
      10 * (attempts.takeWhile fun a => !attemptTerminal a).length ∧
    (restartLoop attempts).1 =
      (match attempts.find? attemptTerminal with
       | some a => attemptExit a
       | none => RestartExit.stillLooping) := by
  induction attempts with
  | nil => exact ⟨rfl, rfl⟩
  | cons a rest ih =>
    obtain ⟨ihSleep, ihExit⟩ := ih
    cases hr : a.result with
    | none =>
      have ht : attemptTerminal a = true := by simp [attemptTerminal, hr]
      constructor
      · simp [restartLoop, hr, List.takeWhile_cons, ht]
      · simp [restartLoop, hr, List.find?_cons_of_pos _ ht, attemptExit]
    | some e =>
      by_cases hc : a.ctxDone = true
      · have ht : attemptTerminal a = true := by simp [attemptTerminal, hc]
        constructor
        · simp [restartLoop, hr, hc, List.takeWhile_cons, ht]
        · simp [restartLoop, hr, hc, List.find?_cons_of_pos _ ht, attemptExit]
      · rw [Bool.not_eq_true] at hc
        by_cases he : e = GoError.DevPodAlreadyExists
        · have ht : attemptTerminal a = true := by simp [attemptTerminal, hr, he]
          constructor
          · simp [restartLoop, hr, hc, he, List.takeWhile_cons, ht]
          · simp [restartLoop, hr, hc, he, List.find?_cons_of_pos _ ht, attemptExit]
        · have ht : attemptTerminal a = false := by
            simp [attemptTerminal, hr, hc, he]
          constructor
          · have hred : (restartLoop (a :: rest)).2 = (restartLoop rest).2 + 10 := by
              simp [restartLoop, hr, hc, he]
            rw [hred, ihSleep, List.takeWhile_cons]
            rw [if_pos (by simp [ht])]
            rw [List.length_cons]
            ring
          · have hred : (restartLoop (a :: rest)).1 = (restartLoop rest).1 := by
              simp [restartLoop, hr, hc, he]
            rw [List.find?_cons_of_neg _ (by simp [ht]), hred]
            exact ihExit

/-- Claim C3: when a session's Done fires with a terminal error classified
DevPodLostConnection and the owning context is not cancelled, the watcher enters
the restart loop: each failed attempt that exits neither way is followed by a
fixed 10-second sleep (total sleep is 10 seconds times the number of such
attempts), and the loop ends exactly at the first attempt that succeeds, finds
the context cancelled, or is rejected with DevPodAlreadyExists — the latter two
exits are silent, the goroutine surfacing no error by construction. -/
theorem manager_lost_connection_restart (c : Bool) (te : Option GoError)
    (attempts : List RestartAttempt)
    (h1 : c = false) (h2 : te = some GoError.DevPodLostConnection) :
    startWatcher c te attempts = restartLoop attempts ∧
    (restartLoop attempts).2 =
      10 * (attempts.takeWhile fun a => !attemptTerminal a).length ∧
    (restartLoop attempts).1 =
      (match attempts.find? attemptTerminal with
       | some a => attemptExit a
       | none => RestartExit.stillLooping) := by
  subst h1 h2
  exact ⟨rfl, restartLoop_spec attempts⟩

/-- Claim C3 witness: two failed attempts (10 seconds of sleep each) followed by a
successful one — 20 seconds slept in total and exit by success. -/
theorem manager_lost_connection_restart_witness :
    startWatcher false (some GoError.DevPodLostConnection)
        [{ result := some (GoError.errorf "a"), ctxDone := false },
         { result := some (GoError.errorf "b"), ctxDone := false },
         { result := none, ctxDone := false }] =
      restartLoop
        [{ result := some (GoError.errorf "a"), ctxDone := false },
         { result := some (GoError.errorf "b"), ctxDone := false },
         { result := none, ctxDone := false }] ∧
    (restartLoop
        [{ result := some (GoError.errorf "a"), ctxDone := false },
         { result := some (GoError.errorf "b"), ctxDone := false },
         { result := none, ctxDone := false }]).2 =
      10 * (List.takeWhile (fun a => !attemptTerminal a)
        [{ result := some (GoError.errorf "a"), ctxDone := false },
         { result := some (GoError.errorf "b"), ctxDone := false },
         { result := none, ctxDone := false }]).length ∧
    (restartLoop
        [{ result := some (GoError.errorf "a"), ctxDone := false },
         { result := some (GoError.errorf "b"), ctxDone := false },
         { result := none, ctxDone := false }]).1 =
      (match List.find? attemptTerminal
        [{ result := some (GoError.errorf "a"), ctxDone := false },
         { result := some (GoError.errorf "b"), ctxDone := false },
         { result := none, ctxDone := false }] with
       | some a => attemptExit a
       | none => RestartExit.stillLooping) :=
  manager_lost_connection_restart false (some GoError.DevPodLostConnection)
    [{ result := some (GoError.errorf "a"), ctxDone := false },
     { result := some (GoError.errorf "b"), ctxDone := false },
     { result := none, ctxDone := false }] rfl rfl

/-! ## Port forwarding (pkg/devspace/services/portforwarding/portforwarding.go) -/

/-- latest.PortMapping as startForwarding reads it: *LocalPort, *RemotePort (nil
pointers as none) and BindAddress (Go zero value "" when unset). -/
structure PortMapping where
  LocalPort : Option Nat
  RemotePort : Option Nat
  BindAddress : String
deriving DecidableEq, Repr

/-- The pod returned by the target selector, as used in the confirmation log. -/
structure Pod where
  Namespace : String
  Name : String
deriving DecidableEq, Repr

/-- The per-mapping loop of startForwarding (portforwarding.go lines 123-147),
carrying the Go loop index: a missing LocalPort fails immediately naming the
index; the remote port string defaults to the local port string; port.Check
(modelled by the occupied list) only adds a warning; the bind address defaults to
"localhost" when empty. Returns the warnings emitted before the outcome, and on
success the "local:remote" pairs with their addresses. -/
def computeMappings (occupied : List Nat) :
    Nat → List PortMapping → List String × Except GoError (List String × List String)
  | _, [] => ([], Except.ok ([], []))
  | index, pm :: rest =>
    match pm.LocalPort with
    | none =>
      ([], Except.error (GoError.errorf ("port is not defined in portmapping " ++ toString index)))
    | some lp =>
      let localPort := toString lp
      let remotePort := match pm.RemotePort with
        | some rp => toString rp
        | none => localPort
      let warn := if occupied.contains lp then
          ["Seems like port " ++ toString lp ++ " is already in use. Is another application using that port?"]
        else []
      let tail1 := computeMappings occupied (index + 1) rest
      (warn ++ tail1.1,
        match tail1.2 with
        | Except.error e => Except.error e
        | Except.ok (ps, addrs) =>
          Except.ok ((localPort ++ ":" ++ remotePort) :: ps,
            (if pm.BindAddress = "" then "localhost" else pm.BindAddress) :: addrs))

/-- The 20-second deadline armed by time.After in the readiness select
(portforwarding.go line 171). -/
def forwardTimeoutSeconds : Nat := 20

/-- Which alternative of the readiness select (portforwarding.go lines 164-173)
fires first: context cancellation, the readiness channel, the error channel, or
the timeout elapsing at forwardTimeoutSeconds. -/
inductive RaceWinner where
  | ctxDone : RaceWinner
  | ready : RaceWinner
  | errChan (e : GoError) : RaceWinner
  | timeout : RaceWinner
deriving DecidableEq, Repr

/-- The environment one startForwarding call runs in: the value of ctx.IsDone() at
entry, the selector result (error, no pod, or a pod), the locally occupied ports
seen by port.Check, the error from NewPortForwarder creation if any, and the
winner of the readiness race. -/
structure ForwardEnv where
  ctxDoneAtEntry : Bool
  selectPod : Except GoError (Option Pod)
  occupied : List Nat
  newForwarderErr : Option GoError
  race : RaceWinner
deriving Repr

/-- What one startForwarding call returns and observably does: its return value,
the log lines emitted (warnings and the started confirmation), and whether the
watcher member was spawned on the tree (parent.Go at line 175). -/
structure ForwardResult where
  retErr : Option GoError
  logs : List String
  watcherSpawned : Bool
deriving DecidableEq, Repr

/-- The confirmation emitted on readiness (portforwarding.go line 168): the joined
port pairs and the target pod's namespace and name. -/
def forwardStartedLog (ports : List String) (pod : Pod) : String :=
  "Port forwarding started on " ++ String.intercalate ", " ports ++
    " (" ++ pod.Namespace ++ "/" ++ pod.Name ++ ")"

/-- startForwarding (portforwarding.go lines 110-218) up to and including the
readiness race: done context at entry is a quiet nil return; selector error is
wrapped "error selecting pod"; no pod is a quiet nil return; mapping computation
as in computeMappings; forwarder-creation failure is "Error starting port
forwarding: ..."; then the four-way race decides the outcome, successful
readiness spawning the watcher member. -/
def startForwarding (env : ForwardEnv) (pms : List PortMapping) : ForwardResult :=
  if env.ctxDoneAtEntry then { retErr := none, logs := [], watcherSpawned := false }
  else
    match env.selectPod with
    | Except.error e =>
      { retErr := some (GoError.wrap e "error selecting pod"), logs := [], watcherSpawned := false }
    | Except.ok none => { retErr := none, logs := [], watcherSpawned := false }
    | Except.ok (some pod) =>
      match computeMappings env.occupied 0 pms with
      | (ws, Except.error e) => { retErr := some e, logs := ws, watcherSpawned := false }
      | (ws, Except.ok (ports, _addrs)) =>
        match env.newForwarderErr with
        | some e =>
          { retErr := some (GoError.errorf ("Error starting port forwarding: " ++ e.message)),
            logs := ws, watcherSpawned := false }
        | none =>
          match env.race with
          | RaceWinner.ctxDone => { retErr := none, logs := ws, watcherSpawned := false }
          | RaceWinner.ready =>
            { retErr := none, logs := ws ++ [forwardStartedLog ports pod], watcherSpawned := true }
          | RaceWinner.errChan e =>
            { retErr := some (GoError.wrap e "forward ports"), logs := ws, watcherSpawned := false }
          | RaceWinner.timeout =>
            { retErr := some (GoError.errorf "Timeout waiting for port forwarding to start"),
              logs := ws, watcherSpawned := false }

/-- Claim C4: once establishment reaches the readiness race (context live at
entry, a pod selected, mappings computed, forwarder created), the outcome is the
four-way race: context cancellation returns nil; readiness succeeds, spawns the
watcher and logs the confirmation naming the port pairs and the pod's
namespace/name; an error-channel firing returns that error wrapped
"forward ports"; and the timeout — armed at forwardTimeoutSeconds = 20 seconds —
returns the timeout error. -/
theorem startForwarding_readiness_race (env : ForwardEnv) (pod : Pod)
    (pms : List PortMapping) (ws ports addrs : List String)
    (h1 : env.ctxDoneAtEntry = false)
    (h2 : env.selectPod = Except.ok (some pod))
    (h3 : computeMappings env.occupied 0 pms = (ws, Except.ok (ports, addrs)))
    (h4 : env.newForwarderErr = none) :
    (env.race = RaceWinner.ctxDone →
      startForwarding env pms = { retErr := none, logs := ws, watcherSpawned := false }) ∧
    (env.race = RaceWinner.ready →
      startForwarding env pms =
        { retErr := none, logs := ws ++ [forwardStartedLog ports pod], watcherSpawned := true }) ∧
    (∀ e, env.race = RaceWinner.errChan e →
      startForwarding env pms =
        { retErr := some (GoError.wrap e "forward ports"), logs := ws, watcherSpawned := false }) ∧
    (env.race = RaceWinner.timeout →
      startForwarding env pms =
        { retErr := some (GoError.errorf "Timeout waiting for port forwarding to start"),
          logs := ws, watcherSpawned := false }) ∧
    forwardTimeoutSeconds = 20 := by
  unfold startForwarding
  rw [h1]
  simp only [Bool.false_eq_true, if_false, h2, h3, h4]
  refine ⟨?_, ?_, ?_, ?_, rfl⟩
  · intro h; rw [h]
  · intro h; rw [h]
  · intro e h; rw [h]
  · intro h; rw [h]

/-- A concrete environment for exercising the readiness race: live context, a
selected pod, no occupied ports, forwarder created, readiness firing first. -/
def readyEnv : ForwardEnv :=
  { ctxDoneAtEntry := false,
    selectPod := Except.ok (some { Namespace := "ns", Name := "api-pod" }),
    occupied := [], newForwarderErr := none, race := RaceWinner.ready }

/-- The pod readyEnv selects. -/
def readyPod : Pod := { Namespace := "ns", Name := "api-pod" }

/-- One mapping {localPort: 8080}, remote port and bind address unset. -/
def mapping8080 : List PortMapping :=
  [{ LocalPort := some 8080, RemotePort := none, BindAddress := "" }]

/-- Claim C4 witness: in the concrete readiness-first environment the race
hypotheses hold and establishment succeeds with the confirmation log naming
8080:8080 and the pod, with the 20-second timeout armed. -/
theorem startForwarding_readiness_race_witness :
    startForwarding readyEnv mapping8080 =
      { retErr := none, logs := [] ++ [forwardStartedLog ["8080:8080"] readyPod],
        watcherSpawned := true } ∧
    forwardTimeoutSeconds = 20 :=
  ⟨(startForwarding_readiness_race readyEnv readyPod mapping8080
      [] ["8080:8080"] ["localhost"] rfl rfl rfl rfl).2.1 rfl,
   (startForwarding_readiness_race readyEnv readyPod mapping8080
      [] ["8080:8080"] ["localhost"] rfl rfl rfl rfl).2.2.2.2⟩

theorem computeMappings_missing (occ : List Nat) (pms : List PortMapping) :
    ∀ (k i : Nat) (pm : PortMapping), pms.get? i = some pm → pm.LocalPort = none →
    (∀ j, j < i → ∀ pmj, pms.get? j = some pmj → pmj.LocalPort.isSome = true) →
    (computeMappings occ k pms).2 =
      Except.error (GoError.errorf ("port is not defined in portmapping " ++ toString (k + i))) := by
  induction pms with
  | nil =>
    intro k i pm hget
    simp [List.get?] at hget
  | cons pm0 rest ih =>
    intro k i pm hget hnone hbefore
    cases i with
    | zero =>
      have hpm : pm0 = pm := by simpa using hget
      subst hpm
      simp [computeMappings, hnone]
    | succ i =>
      have h0 : pm0.LocalPort.isSome = true := hbefore 0 (Nat.succ_pos i) pm0 rfl
      obtain ⟨lp, hlp⟩ := Option.isSome_iff_exists.mp h0
      have hbefore1 : ∀ j, j < i → ∀ pmj, rest.get? j = some pmj →
          pmj.LocalPort.isSome = true := by
        intro j hj pmj hg
        exact hbefore (j + 1) (Nat.succ_lt_succ hj) pmj hg
      have hrec := ih (k + 1) i pm hget hnone hbefore1
      have harith : k + 1 + i = k + (i + 1) := by omega
      rw [harith] at hrec
      simp [computeMappings, hlp, hrec]

/-- Claim C5: in the per-mapping loop of startForwarding, a mapping with no local
port makes establishment fail immediately with the configuration error naming the
mapping's index (given every earlier mapping has its local port set, so the loop
reaches it); the remote port defaults to the local port when unset and the bind
address defaults to "localhost" when unset (so {localPort: 8080} alone yields the
pair "8080:8080" on "localhost"); and the local-port-availability probe never
changes the outcome — the success-or-error result is independent of which ports
are occupied — an occupied local port only adds a warning. -/
theorem startForwarding_mapping_defaults :
    (∀ (occ : List Nat) (pms : List PortMapping) (i : Nat) (pm : PortMapping),
      pms.get? i = some pm → pm.LocalPort = none →
      (∀ j, j < i → ∀ pmj, pms.get? j = some pmj → pmj.LocalPort.isSome = true) →
      (computeMappings occ 0 pms).2 =
        Except.error (GoError.errorf ("port is not defined in portmapping " ++ toString i))) ∧
    (∀ (occ : List Nat) (k lp : Nat) (pm : PortMapping) (rest : List PortMapping)
        (ps addrs : List String),
      pm.LocalPort = some lp → pm.RemotePort = none → pm.BindAddress = "" →
      (computeMappings occ (k + 1) rest).2 = Except.ok (ps, addrs) →
      (computeMappings occ k (pm :: rest)).2 =
        Except.ok ((toString lp ++ ":" ++ toString lp) :: ps, "localhost" :: addrs)) ∧
    (∀ (occ1 occ2 : List Nat) (k : Nat) (pms : List PortMapping),
      (computeMappings occ1 k pms).2 = (computeMappings occ2 k pms).2) ∧
    (∀ (occ : List Nat) (k lp : Nat) (pm : PortMapping) (rest : List PortMapping),
      pm.LocalPort = some lp → occ.contains lp = true →
      ("Seems like port " ++ toString lp ++
          " is already in use. Is another application using that port?") ∈
        (computeMappings occ k (pm :: rest)).1) := by
  refine ⟨?_, ?_, ?_, ?_⟩
  · intro occ pms i pm hget hnone hbefore
    have h := computeMappings_missing occ pms 0 i pm hget hnone hbefore
    simpa using h
  · intro occ k lp pm rest ps addrs hlp hrp hba htail
    simp [computeMappings, hlp, hrp, hba, htail]
  · intro occ1 occ2 k pms
    induction pms generalizing k with
    | nil => rfl
    | cons pm0 rest ih =>
      cases hlp : pm0.LocalPort with
      | none => simp [computeMappings, hlp]
      | some lp => simp [computeMappings, hlp, ih]
  · intro occ k lp pm rest hlp hocc
    simp [computeMappings, hlp, hocc]
    exact Or.inl (by simpa using hocc)

/-- Claim C5 witness: a mapping with no local port fails naming index 0;
{localPort: 8080} alone yields the pair "8080:8080" bound to "localhost"; and
with port 8080 occupied the warning is emitted while the same pairs are produced. -/
theorem startForwarding_mapping_defaults_witness :
    (computeMappings [] 0 [{ LocalPort := none, RemotePort := none, BindAddress := "" }]).2 =
      Except.error (GoError.errorf ("port is not defined in portmapping " ++ toString 0)) ∧
    (computeMappings [] 0 mapping8080).2 =
      Except.ok ([toString 8080 ++ ":" ++ toString 8080], ["localhost"]) ∧
    ("Seems like port " ++ toString 8080 ++
        " is already in use. Is another application using that port?") ∈
      (computeMappings [8080] 0 mapping8080).1 :=
  ⟨startForwarding_mapping_defaults.1 []
      [{ LocalPort := none, RemotePort := none, BindAddress := "" }] 0
      { LocalPort := none, RemotePort := none, BindAddress := "" } rfl rfl
      (fun j hj _ _ => absurd hj (Nat.not_lt_zero j)),
   startForwarding_mapping_defaults.2.1 [] 0 8080
      { LocalPort := some 8080, RemotePort := none, BindAddress := "" } [] [] []
      rfl rfl rfl rfl,
   startForwarding_mapping_defaults.2.2.2 [8080] 0 8080
      { LocalPort := some 8080, RemotePort := none, BindAddress := "" } []
      rfl rfl⟩

/-! ## The forwarding watcher member (portforwarding.go lines 175-215) -/

/-- One iteration of the watcher's re-establishment loop as it observes it: the
return of the recursive startForwarding call, and whether ctx.Done fires during
the 15-second wait select (portforwarding.go lines 201-207). -/
structure ReattemptEnv where
  result : Option GoError
  ctxDoneDuringWait : Bool
deriving DecidableEq, Repr

/-- How the watcher finishes: a re-establishment attempt returned nil; the context
was cancelled (either the outer select or the wait select); the error channel
delivered nil so nothing was done; or the observation list ran out mid-loop. The
member function always returns nil: no error escapes it. -/
inductive WatcherExit where
  | reattemptSucceeded : WatcherExit
  | ctxCancelled : WatcherExit
  | errWasNil : WatcherExit
  | stillLooping : WatcherExit
deriving DecidableEq, Repr

/-- The 15-second wait between failed re-establishment attempts
(portforwarding.go line 202). -/
def reattemptWaitSeconds : Nat := 15

/-- The outcome of the watcher's for-loop (portforwarding.go lines 191-211):
which way it exited, the seconds spent in the wait select, how many times the
restart hooks were invoked inside the loop, and how many times stopPortForwarding
ran (stop hooks, parent.Kill(nil), "Stopped port forwarding"). -/
structure ReattemptOutcome where
  exitedBy : WatcherExit
  sleepSeconds : Nat
  restartHookCalls : Nat
  stopRuns : Nat
deriving DecidableEq, Repr

/-- The for-loop of portforwarding.go lines 191-211, one entry per iteration: call
startForwarding again; on nil return, break; on error, invoke the restart hooks
best-effort and log, then race the 15-second timer against ctx.Done — cancellation
runs stopPortForwarding and returns nil, the timer elapsing continues the loop. -/
def reattemptLoop : List ReattemptEnv → ReattemptOutcome
  | [] =>
    { exitedBy := WatcherExit.stillLooping, sleepSeconds := 0,
      restartHookCalls := 0, stopRuns := 0 }
  | env :: rest =>
    match env.result with
    | none =>
      { exitedBy := WatcherExit.reattemptSucceeded, sleepSeconds := 0,
        restartHookCalls := 0, stopRuns := 0 }
    | some _ =>
      if env.ctxDoneDuringWait then
        { exitedBy := WatcherExit.ctxCancelled, sleepSeconds := 0,
          restartHookCalls := 1, stopRuns := 1 }
      else
        let o := reattemptLoop rest
        { exitedBy := o.exitedBy, sleepSeconds := o.sleepSeconds + reattemptWaitSeconds,
          restartHookCalls := o.restartHookCalls + 1, stopRuns := o.stopRuns }

/-- Which alternative of the watcher's outer select (portforwarding.go lines
177-213) fires: context cancellation, or the error channel delivering a value
(nil or an error). -/
inductive WatcherEvent where
  | ctxDone : WatcherEvent
  | errFires (e : Option GoError) : WatcherEvent
deriving DecidableEq, Repr

/-- The watcher's full observable behaviour: the member's return value (always
nil), the number of "Portforwarding restarting, because" error log entries,
whether the old forwarder was closed, the total restart-hook invocations, the
stopPortForwarding runs, the wait seconds, and the exit. -/
structure WatcherResult where
  retErr : Option GoError
  restartingLogCount : Nat
  closedForwarder : Bool
  restartHookCalls : Nat
  stopRuns : Nat
  sleepSeconds : Nat
  exitedBy : WatcherExit
deriving DecidableEq, Repr

/-- The watcher member spawned by startForwarding on successful establishment
(portforwarding.go lines 175-215): context cancellation closes the forwarder and
runs stopPortForwarding; the error channel delivering nil does nothing; a real
error is logged once, the pod error printed, the old forwarder closed, the
restart hooks invoked once best-effort, and then the re-establishment loop runs. -/
def watcherMember (ev : WatcherEvent) (reattempts : List ReattemptEnv) : WatcherResult :=
  match ev with
  | WatcherEvent.ctxDone =>
    { retErr := none, restartingLogCount := 0, closedForwarder := true,
      restartHookCalls := 0, stopRuns := 1, sleepSeconds := 0,
      exitedBy := WatcherExit.ctxCancelled }
  | WatcherEvent.errFires none =>
    { retErr := none, restartingLogCount := 0, closedForwarder := false,
      restartHookCalls := 0, stopRuns := 0, sleepSeconds := 0,
      exitedBy := WatcherExit.errWasNil }
  | WatcherEvent.errFires (some _) =>
    let o := reattemptLoop reattempts
    { retErr := none, restartingLogCount := 1, closedForwarder := true,
      restartHookCalls := o.restartHookCalls + 1, stopRuns := o.stopRuns,
      sleepSeconds := o.sleepSeconds, exitedBy := o.exitedBy }

/-- A loop iteration on which the watcher's re-establishment loop exits: the
attempt returned nil, or the context was cancelled during the wait. -/
def reattemptTerminal (env : ReattemptEnv) : Bool :=
  env.result.isNone || env.ctxDoneDuringWait

theorem reattemptLoop_spec (reattempts : List ReattemptEnv) :
    (reattemptLoop reattempts).sleepSeconds =
      reattemptWaitSeconds *
        (reattempts.takeWhile fun env => !reattemptTerminal env).length ∧
    (reattemptLoop reattempts).restartHookCalls =
      ((reattempts.takeWhile fun env => !reattemptTerminal env).length +
        (match reattempts.find? reattemptTerminal with
         | some env => if env.result.isNone then 0 else 1
         | none => 0)) ∧
    (reattemptLoop reattempts).exitedBy =
      (match reattempts.find? reattemptTerminal with
       | some env => if env.result.isNone then WatcherExit.reattemptSucceeded
                     else WatcherExit.ctxCancelled
       | none => WatcherExit.stillLooping) := by
  induction reattempts with
  | nil => exact ⟨rfl, rfl, rfl⟩
  | cons env rest ih =>
    obtain ⟨ihS, ihH, ihE⟩ := ih
    cases hr : env.result with
    | none =>
      have ht : reattemptTerminal env = true := by simp [reattemptTerminal, hr]
      refine ⟨?_, ?_, ?_⟩ <;>
        simp [reattemptLoop, hr, List.takeWhile_cons, ht,
          List.find?_cons_of_pos _ ht]
    | some e =>
      by_cases hc : env.ctxDoneDuringWait = true
      · have ht : reattemptTerminal env = true := by simp [reattemptTerminal, hc]
        refine ⟨?_, ?_, ?_⟩ <;>
          simp [reattemptLoop, hr, hc, List.takeWhile_cons, ht,
            List.find?_cons_of_pos _ ht]
      · rw [Bool.not_eq_true] at hc
        have ht : reattemptTerminal env = false := by
          simp [reattemptTerminal, hr, hc]
        have hS : (reattemptLoop (env :: rest)).sleepSeconds =
            (reattemptLoop rest).sleepSeconds + reattemptWaitSeconds := by
          simp [reattemptLoop, hr, hc]
        have hH : (reattemptLoop (env :: rest)).restartHookCalls =
            (reattemptLoop rest).restartHookCalls + 1 := by
          simp [reattemptLoop, hr, hc]
        have hE : (reattemptLoop (env :: rest)).exitedBy =
            (reattemptLoop rest).exitedBy := by
          simp [reattemptLoop, hr, hc]
        refine ⟨?_, ?_, ?_⟩
        · rw [hS, ihS, List.takeWhile_cons, if_pos (by simp [ht]), List.length_cons]
          ring
        · rw [hH, ihH, List.takeWhile_cons, if_pos (by simp [ht]), List.length_cons,
            List.find?_cons_of_neg _ (by simp [ht])]
          omega
        · rw [hE, ihE, List.find?_cons_of_neg _ (by simp [ht])]

/-- Claim C6: the watcher member races context cancellation (close the forwarder,
run stopPortForwarding, return nil) against the error channel; a mid-flight
forwarder error produces exactly one "Portforwarding restarting" log, a
best-effort restart-hook invocation, closes the old forwarder, and enters the
re-establishment loop whose failed attempts are separated by
reattemptWaitSeconds = 15 second waits and which ends exactly at the first
attempt that returns nil or finds the context cancelled; the member never
surfaces an error. -/
theorem forwarding_watcher_retry (reattempts : List ReattemptEnv) :
    (watcherMember WatcherEvent.ctxDone reattempts =
      { retErr := none, restartingLogCount := 0, closedForwarder := true,
        restartHookCalls := 0, stopRuns := 1, sleepSeconds := 0,
        exitedBy := WatcherExit.ctxCancelled }) ∧
    (∀ e : GoError,
      (watcherMember (WatcherEvent.errFires (some e)) reattempts).retErr = none ∧
      (watcherMember (WatcherEvent.errFires (some e)) reattempts).restartingLogCount = 1 ∧
      (watcherMember (WatcherEvent.errFires (some e)) reattempts).closedForwarder = true ∧
      (watcherMember (WatcherEvent.errFires (some e)) reattempts).restartHookCalls =
        (reattemptLoop reattempts).restartHookCalls + 1 ∧
      (watcherMember (WatcherEvent.errFires (some e)) reattempts).sleepSeconds =
        reattemptWaitSeconds *
          (reattempts.takeWhile fun env => !reattemptTerminal env).length ∧
      (watcherMember (WatcherEvent.errFires (some e)) reattempts).exitedBy =
        (match reattempts.find? reattemptTerminal with
         | some env => if env.result.isNone then WatcherExit.reattemptSucceeded
                       else WatcherExit.ctxCancelled
         | none => WatcherExit.stillLooping)) ∧
    reattemptWaitSeconds = 15 := by
  obtain ⟨hS, hH, hE⟩ := reattemptLoop_spec reattempts
  refine ⟨rfl, ?_, rfl⟩
  intro e
  refine ⟨rfl, rfl, rfl, rfl, ?_, ?_⟩
  · show (reattemptLoop reattempts).sleepSeconds = _
    exact hS
  · show (reattemptLoop reattempts).exitedBy = _
    exact hE

/-! ## StartPortForwarding (portforwarding.go lines 22-58) -/

/-- latest.DevContainer as this file reads it: the container name, the
architecture tag and the container's reverse port mappings. -/
structure DevContainer where
  Container : String
  Arch : String
  PortMappingsReverse : List PortMapping
deriving DecidableEq, Repr

/-- latest.DevPod as this file reads it: the name, the forward mappings, the
embedded (top-level) dev container — whose PortMappingsReverse field is what the
promoted selector devPod.PortMappingsReverse denotes — and the named containers. -/
structure DevPodConfig where
  Name : String
  Forward : List PortMapping
  embedded : DevContainer
  Containers : List DevContainer
deriving DecidableEq, Repr

/-- Go's promoted field devPod.PortMappingsReverse: the embedded dev container's
reverse mappings. -/
def DevPodConfig.PortMappingsReverse (d : DevPodConfig) : List PortMapping :=
  d.embedded.PortMappingsReverse

/-- Modelled from the spec: loader.EachDevContainer (its file is not among the
sources) — iterates the dev pod's dev containers, the named ones when declared,
otherwise the pod's own embedded dev container (spec section 4.5: "one set per
dev container"). -/
def EachDevContainer (d : DevPodConfig) : List DevContainer :=
  if d.Containers.isEmpty then [d.embedded] else d.Containers

/-- One reverse-forwarding member spawned by StartPortForwarding: the architecture
tag, the container selector and the mappings handed to
startReversePortForwardingWithHooks (portforwarding.go line 47). -/
structure SpawnedReverseSet where
  arch : String
  container : String
  mappings : List PortMapping
deriving DecidableEq, Repr

/-- What StartPortForwarding spawns on the parent tree before blocking on the
initDone channels: how many forward-set members (lines 29-37: one iff
devPod.Forward is non-empty, handling all forward mappings at once) and which
reverse-set members (lines 40-51: per dev container iterated, gated on
devPod.PortMappingsReverse — the promoted top-level field — and passing
devContainer.PortMappingsReverse with devContainer.Arch). -/
def StartPortForwarding (d : DevPodConfig) : Nat × List SpawnedReverseSet :=
  (if d.Forward.length > 0 then 1 else 0,
    (EachDevContainer d).foldr
      (fun c acc =>
        if d.PortMappingsReverse.length > 0 then
          { arch := c.Arch, container := c.Container,
            mappings := c.PortMappingsReverse } :: acc
        else acc) [])

/-- The failing input for claim C7: a dev pod with two named containers, one of
which has reverse port mappings configured, while the pod's own embedded
(top-level) reverse-mapping field is empty — the usual shape of a multi-container
dev pod configuration. -/
def multiContainerPod : DevPodConfig :=
  { Name := "api",
    Forward := [{ LocalPort := some 3000, RemotePort := none, BindAddress := "" }],
    embedded := { Container := "", Arch := "", PortMappingsReverse := [] },
    Containers :=
      [{ Container := "app", Arch := "amd64",
         PortMappingsReverse := [{ LocalPort := some 8080, RemotePort := none, BindAddress := "" }] },
       { Container := "sidecar", Arch := "arm64", PortMappingsReverse := [] }] }

/-- Claim C7 (code bug): StartPortForwarding does spawn the forward set exactly
once for the whole session when forward mappings are configured, but the
reverse-set gate tests the pod's promoted top-level PortMappingsReverse rather
than each iterated container's own mappings: on multiContainerPod a dev container
("app", arch amd64) has reverse mappings configured, yet no reverse forwarding
set at all is spawned — contradicting one reverse set per dev container that has
reverse port mappings configured. -/
theorem startPortForwarding_reverse_gate_bug :
    (StartPortForwarding multiContainerPod).1 = 1 ∧
    ((EachDevContainer multiContainerPod).filter
        (fun c => c.PortMappingsReverse.length > 0)).length = 1 ∧
    (StartPortForwarding multiContainerPod).2 = [] := by
  decide
